import Mathlib

/-
  Verification development for the alba_pipeline repository.

  Shallow embedding of the continuity-aware video generation pipeline:
  - the Continuity Model Builder (uniqueEnvironments, src/components/VideoPipeline.tsx),
  - the Scene Prompt Composer (src/api/continuity.ts handler),
  - the Composition Engine (src/services/videoStitchingService.ts stitchVideos),
  - the Generation Job Driver and Pipeline Sequencer
    (src/services/geminiService.ts generateVideoForScene,
     src/components/VideoPipeline.tsx handleVideoGeneration).

  JavaScript strings are modelled as Lean String, JS arrays as List,
  nullable fields as Option.  External effects (fetch, the generative
  service, ffmpeg) are modelled as explicit environment parameters.
-/

/-- Model of the TypeScript union type TransitionType
    (src/types.ts): the closed set of transition kinds. -/
inductive TransitionType where
  | fade
  | dissolve
  | wipeleft
  | wiperight
  | circleopen
deriving Repr, DecidableEq

/-- Model of the Scene interface (src/types.ts). -/
structure Scene where
  id : Nat
  scene_description : String
  characters : List String
  environment : String
  action : String
  transitionToNext : TransitionType
deriving Repr, DecidableEq

/-- Model of the Character interface (src/types.ts).  The File object
    imageFile is modelled by its mime type string (the only part the
    pipeline reads); imageBase64 and lockedDescription are nullable
    strings as in the source. -/
structure Character where
  id : Nat
  name : String
  imageFile : Option String
  imageBase64 : Option String
  lockedDescription : Option String
deriving Repr, DecidableEq

/-- JavaScript truthiness of a nullable string: null and the empty
    string are falsy, every other string is truthy.  Used to model the
    source's `x || default` and `!x` idioms on string fields. -/
def jsTruthy : Option String → Bool
  | none => false
  | some s => !(s == "")

/-- Model of `x || d` on a JS nullable string x: the default d is used
    when x is null or the empty string. -/
def jsOr (x : Option String) (d : String) : String :=
  match x with
  | none => d
  | some s => if s == "" then d else s

/-- Whitespace predicate for the model of JavaScript String.prototype.trim
    (space, tab, newline, carriage return). -/
def isTrimSpace (c : Char) : Bool :=
  c == ' ' || c == '\t' || c == '\n' || c == '\r'

/-- Model of JavaScript String.prototype.trim: drop leading and trailing
    whitespace. -/
def jsTrim (s : String) : String :=
  ⟨((s.data.dropWhile isTrimSpace).reverse.dropWhile isTrimSpace).reverse⟩

/-! ## Continuity Model Builder (src/components/VideoPipeline.tsx, lines 444-448)

The source builds `uniqueEnvironments` as
`[...new Set(scenes.map(s => s.environment.trim()))].map((env, index) => (...))`.
A JS Set iterates in insertion order, so the spread keeps the first
occurrence of each trimmed environment string. -/

/-- First-occurrence deduplication with an accumulator of already seen
    elements: the model of iterating `new Set(l)` in insertion order. -/
def dedupFirstAux (seen : List String) : List String → List String
  | [] => []
  | x :: xs => if x ∈ seen then dedupFirstAux seen xs else x :: dedupFirstAux (x :: seen) xs

/-- Model of `[...new Set(l)]`: keep the first occurrence of each
    element, in order of first appearance. -/
def dedupFirst (l : List String) : List String :=
  dedupFirstAux [] l

/-- One entry of the Continuity Model environments list. -/
structure EnvEntry where
  id : String
  description : String
deriving Repr, DecidableEq

/-- Model of `.map((env, index) => ({ id: "env_" + (index+1), description: env }))`
    starting at index i. -/
def assignEnvIds : Nat → List String → List EnvEntry
  | _, [] => []
  | i, e :: es => { id := "env_" ++ toString (i + 1), description := e } :: assignEnvIds (i + 1) es

/-- Model of uniqueEnvironments (src/components/VideoPipeline.tsx):
    deduplicate the trimmed scene environments by first appearance and
    assign sequential synthetic ids env_1, env_2, ... -/
def uniqueEnvironments (scenes : List Scene) : List EnvEntry :=
  assignEnvIds 0 (dedupFirst (scenes.map (fun s => jsTrim s.environment)))

/-- Model of the GlobalBible interface
    (src/services/continuityPromptBuilder.ts, src/api/continuity.ts). -/
structure GlobalBible where
  characters : List Character
  environments : List EnvEntry
  style : String
  genre : String
deriving Repr, DecidableEq

/-! ## Scene Prompt Composer (src/api/continuity.ts handler)

The handler composes the directive string `userPrompt` from the scene,
the GlobalBible and the optional previous scene by pure template
interpolation.  The definitions below transcribe the template literals
of continuity.ts byte for byte. -/

namespace Continuity

/-- Fallback text used for a character without a locked description
    (continuity.ts line 34). -/
def noReferenceDefault : String :=
  "No visual reference provided. Describe based on context from the story."

/-- One line of the character bible:
    `- **name**: lockedDescription || default` (continuity.ts lines 33-35). -/
def characterLine (c : Character) : String :=
  "- **" ++ c.name ++ "**: " ++ jsOr c.lockedDescription noReferenceDefault

/-- The character bible block: one line per GlobalBible character,
    joined with newlines (continuity.ts lines 33-35). -/
def characterBible (bible : GlobalBible) : String :=
  String.intercalate "\n" (bible.characters.map characterLine)

/-- One line of the environments block: `- id: description`
    (continuity.ts line 50). -/
def envLine (e : EnvEntry) : String :=
  "- " ++ e.id ++ ": " ++ e.description

/-- The environments block joined with newlines (continuity.ts line 50). -/
def envBlock (bible : GlobalBible) : String :=
  String.intercalate "\n" (bible.environments.map envLine)

/-- The bibleText template literal (continuity.ts lines 38-51). -/
def bibleText (bible : GlobalBible) : String :=
  "\nFILM BIBLE DETAILS:\nGlobal Style: " ++ bible.style
    ++ "\nNarrative Genre: " ++ bible.genre
    ++ "\n\nCANONICAL CHARACTER DESCRIPTIONS (NON-NEGOTIABLE):\n" ++ characterBible bible
    ++ "\n\nENVIRONMENT & STYLE RULES:\n- The visual style MUST remain \"" ++ bible.style
    ++ "\" throughout. It must never drift into realism, Disney, or generic anime archetypes.\n\nKey Environments:\n"
    ++ envBlock bible ++ "\n    "

/-- The continuity note (continuity.ts lines 53-55): reference the
    previous scene action when there is one, otherwise the
    first-scene instruction. -/
def continuityNote : Option Scene → String
  | some prev =>
      "This scene directly follows a scene where: \"" ++ prev.action
        ++ "\". Ensure a smooth transition."
  | none =>
      "This is the very first scene of the story. Set the tone and introduce the world."

/-- The style/genre templated opening clause that the handler instructs
    the downstream model to start with (continuity.ts lines 76 and 84-85). -/
def styleClause (style genre : String) : String :=
  "In a " ++ style ++ " aesthetic, with the dramatic tone of a " ++ genre ++ ", ..."

/-- The `Characters Present` field: `scene.characters.join(", ") || "None"`
    (continuity.ts line 68). -/
def charactersPresent (scene : Scene) : String :=
  let j := String.intercalate ", " scene.characters
  if j == "" then "None" else j

/-- The opening of the userPrompt template literal up to the bibleText
    interpolation (continuity.ts lines 57-61). -/
def rolePreamble : String :=
  "\nYou are an expert continuity director for an animated film. Your task is to generate a single, rich, and consistent prompt for a video generation AI (like Veo) based on a global \"bible\" and the specifics of the current scene.\n\n**FILM BIBLE:**\n---\n"

/-- The userPrompt template content after the role preamble and up to
    the closing quote of the second embedded style clause
    (continuity.ts lines 61-85): scene details, the task instructions
    with the first embedded style clause, and the output instructions. -/
def basePromptTail (scene : Scene) (bible : GlobalBible) (prev : Option Scene) : String :=
  bibleText bible
    ++ "\n---\n\n**CURRENT SCENE DETAILS:**\n---\n- Scene Description: " ++ scene.scene_description
    ++ "\n- Characters Present: " ++ charactersPresent scene
    ++ "\n- Environment: " ++ scene.environment
    ++ "\n- Core Action: " ++ scene.action
    ++ "\n- Continuity Note from Previous Scene: " ++ continuityNote prev
    ++ "\n---\n\n**YOUR TASK:**\nSynthesize all the above information into one single, coherent, and descriptive paragraph. This paragraph is the final prompt.\n- **Mandatory Opening:** The output prompt MUST begin with the exact phrase: \""
    ++ styleClause bible.style bible.genre
    ++ "\". Do not alter this opening.\n- **Maintain Consistency:** Refer to the bible to describe characters and environments consistently. For characters, their appearance MUST be based on their canonical description.\n- **Narrate the Action:** Clearly describe the action of the scene, incorporating the continuity note to ensure a logical flow from the previous scene.\n- **Be Vivid:** Use descriptive language to create a compelling visual for the AI.\n\n**OUTPUT:**\nReturn ONLY the final prompt text as a single paragraph. Do not include any headers, labels, or explanations.\n\nThe output MUST begin exactly with:\n\""

/-- The base userPrompt template literal (continuity.ts lines 57-86),
    before the first-scene wrapping: the role preamble, the tail, the
    second embedded style clause and the closing characters. -/
def basePrompt (scene : Scene) (bible : GlobalBible) (prev : Option Scene) : String :=
  rolePreamble ++ basePromptTail scene bible prev
    ++ styleClause bible.style bible.genre
    ++ "\"\n    "

/-- The first-scene lock instruction block prepended when prevScene is
    absent (continuity.ts lines 89-96): lock the character designs so
    they never change in later scenes. -/
def lockBlockPre : String :=
  "\nIMPORTANT: This is the FIRST SCENE.\nYou MUST lock the exact appearance of all characters to their canonical descriptions from the Film Bible.\nIn all following scenes, these locked designs MUST NOT change in any way.\n"

/-- The composed directive string of the handler (continuity.ts lines
    57-96): the base prompt, wrapped in the lock instruction block when
    there is no previous scene. -/
def userPrompt (scene : Scene) (bible : GlobalBible) (prev : Option Scene) : String :=
  match prev with
  | some _ => basePrompt scene bible prev
  | none => lockBlockPre ++ basePrompt scene bible none ++ "\n        "

end Continuity

/-! ## Composition Engine (src/services/videoStitchingService.ts)

stitchVideos writes each input clip to scene{i}.mp4, returns the single
clip unchanged when there is exactly one, and otherwise builds an xfade
filter graph in a loop over i = 1 .. N-1 with
`offset = i * clipDurationBeforeTransition` and the transition of edge
i-1, then executes it with ffmpeg.  Artifacts are modelled by their
byte content (List Nat); the url-to-bytes resolution performed by
getFileDataFromBlobUrl is modelled by an explicit fetch function. -/

/-- Model of the VideoToStitch interface
    (src/services/videoStitchingService.ts). -/
structure VideoToStitch where
  url : String
  transition : TransitionType
deriving Repr, DecidableEq

/-- Model of the transitionToFfmpegFilter record
    (src/services/videoStitchingService.ts lines 37-43). -/
def transitionToFfmpegFilter : TransitionType → String
  | .fade => "fade"
  | .dissolve => "dissolve"
  | .wipeleft => "wipeleft"
  | .wiperight => "wiperight"
  | .circleopen => "circleopen"

/-- The hard-coded per-clip content duration before a transition begins
    (videoStitchingService.ts line 69). -/
def clipDurationBeforeTransition : Nat := 7

/-- The hard-coded transition duration (videoStitchingService.ts line 70). -/
def transitionDuration : Nat := 1

/-- The parameters of one xfade node of the filter graph. -/
structure XfadeStep where
  videoFilter : String
  duration : Nat
  offset : Nat
deriving Repr, DecidableEq

/-- The xfade node built by loop iteration i (1-based, as in the
    source loop): the transition of edge i-1, the fixed duration, and
    offset i * clipDurationBeforeTransition (videoStitchingService.ts
    lines 76-90).  The `none` branch models the JS lookup fallback
    `|| 'fade'`. -/
def xfadeStep (videos : List VideoToStitch) (i : Nat) : XfadeStep :=
  { videoFilter :=
      match videos.get? (i - 1) with
      | some v => transitionToFfmpegFilter v.transition
      | none => "fade"
    duration := transitionDuration
    offset := i * clipDurationBeforeTransition }

/-- All xfade nodes of the graph, one per loop iteration
    i = 1 .. videos.length - 1, re-indexed by j = i - 1. -/
def xfadeSteps (videos : List VideoToStitch) : List XfadeStep :=
  (List.range (videos.length - 1)).map (fun j => xfadeStep videos (j + 1))

/-- The filter-graph string built by the loop
    (videoStitchingService.ts lines 72-90): at iteration i the last
    video/audio outputs are 0:v/0:a for i = 1 and v(i-1)/a(i-1) after. -/
def filterGraph (videos : List VideoToStitch) : String :=
  String.join ((List.range (videos.length - 1)).map (fun j =>
    let i := j + 1
    let lastV := if i = 1 then "0:v" else "v" ++ toString (i - 1)
    let lastA := if i = 1 then "0:a" else "a" ++ toString (i - 1)
    let st := xfadeStep videos i
    "[" ++ lastV ++ "][" ++ toString i ++ ":v]xfade=transition=" ++ st.videoFilter
      ++ ":duration=" ++ toString st.duration ++ ":offset=" ++ toString st.offset
      ++ "[v" ++ toString i ++ "];"
      ++ "[" ++ lastA ++ "][" ++ toString i ++ ":a]acrossfade=d="
      ++ toString transitionDuration ++ "[a" ++ toString i ++ "];"))

/-- The observable result of stitchVideos: either the sole input clip
    returned unchanged (lines 62-65), or an execution of the built
    filter graph (lines 67-110). -/
inductive StitchResult where
  | single (bytes : List Nat)
  | composed (graph : String) (steps : List XfadeStep)
deriving Repr, DecidableEq

/-- Model of stitchVideos (src/services/videoStitchingService.ts):
    fetch resolves a blob url to its bytes.  With exactly one input the
    bytes written to scene0.mp4 are read back and returned; otherwise
    the filter graph is built and executed. -/
def stitchVideos (fetch : String → List Nat) (videos : List VideoToStitch) : StitchResult :=
  match videos with
  | [v] => .single (fetch v.url)
  | _ => .composed (filterGraph videos) (xfadeSteps videos)

/-! ## Generation Job Driver (src/services/geminiService.ts generateVideoForScene)

The driver submits the generation request, polls the returned operation
every 10 seconds until it is done, and downloads the produced video.
The external service is modelled by a SceneEnv: the submission result,
the sequence of poll responses (none = transport failure, i.e. a
non-OK HTTP poll response), and the download outcome. -/

/-- Per-scene status values (src/types.ts VideoGenerationStatusValue). -/
inductive SceneState where
  | pending
  | generating
  | polling
  | complete
  | error
deriving Repr, DecidableEq

/-- The fields of a long-running operation object the driver reads
    (geminiService.ts lines 130-149): done, error.message, and
    response.video.uri. -/
structure Operation where
  done : Bool
  error : Option String
  videoUri : Option String
deriving Repr, DecidableEq

/-- The poll interval in milliseconds (geminiService.ts line 134:
    setTimeout(resolve, 10000)). -/
def pollIntervalMs : Nat := 10000

/-- Model of the poll loop (geminiService.ts lines 133-141): while the
    operation is not done, take the next poll response; a transport
    failure (none) leaves the operation unchanged; an OK response
    replaces the operation and invokes onPoll, which writes a polling
    status iff the new operation is not done.  Returns the list of
    status writes and the final operation (none when the finite
    response list is exhausted first, i.e. the loop is still running). -/
def pollLoop (attempts : List (Option Operation)) (op : Operation) :
    List SceneState × Option Operation :=
  if op.done then ([], some op)
  else
    match attempts with
    | [] => ([], none)
    | none :: rest => pollLoop rest op
    | some next :: rest =>
        let r := pollLoop rest next
        ((if next.done then [] else [SceneState.polling]) ++ r.1, r.2)

/-- The outcome of one scene generation as seen by the sequencer:
    a video url, a thrown error message, or a still-running poll loop. -/
inductive GenOutcome where
  | ok (url : String)
  | err (msg : String)
  | stuck
deriving Repr, DecidableEq

/-- The external-world behaviour for one scene generation:
    the submission response (error data or the initial operation),
    the poll responses in order, and the download outcome. -/
structure SceneEnv where
  submit : Except String Operation
  attempts : List (Option Operation)
  downloadOk : Bool
  downloadStatus : Nat
  blobUrl : String

/-- The catch-all wrapper of generateVideoForScene
    (geminiService.ts lines 160-165). -/
def errWrap (m : String) : String :=
  "An unexpected error occurred during video generation: " ++ m

/-- The polling status writes produced by one scene generation
    (geminiService.ts lines 133-141): none when the submission already
    failed, otherwise those of the poll loop. -/
def pollWrites (env : SceneEnv) : List SceneState :=
  match env.submit with
  | .error _ => []
  | .ok op0 => (pollLoop env.attempts op0).1

/-- The outcome of one scene generation (geminiService.ts lines
    79-167): a failed submission throws; otherwise the poll loop runs
    to a terminal operation, and an error is thrown for a terminal
    error result, a completed operation without a video uri, or a
    failed download; the object url of the downloaded video is returned
    on success.  A poll transport failure never produces an error. -/
def genOutcome (env : SceneEnv) : GenOutcome :=
  match env.submit with
  | .error m => .err (errWrap ("Video generation API failed: " ++ m))
  | .ok op0 =>
    match (pollLoop env.attempts op0).2 with
    | none => .stuck
    | some opF =>
      match opF.error with
      | some m => .err (errWrap ("Video generation failed: " ++ m))
      | none =>
        match opF.videoUri with
        | none => .err (errWrap "Video generation completed, but no download link was found.")
        | some _ =>
          if env.downloadOk then .ok env.blobUrl
          else .err (errWrap ("Failed to download the generated video (status: "
                  ++ toString env.downloadStatus ++ ")."))

/-- Model of generateVideoForScene (geminiService.ts lines 79-167):
    the polling status writes together with the outcome. -/
def generateVideoForScene (env : SceneEnv) : List SceneState × GenOutcome :=
  (pollWrites env, genOutcome env)

/-! ## Pipeline Sequencer (src/components/VideoPipeline.tsx handleVideoGeneration)

The sequencer resolves locked character descriptions first, creates one
pending status per scene, then iterates scenes strictly in order:
before each scene it writes generating, the driver writes polling
during the poll loop, and on completion it writes complete or error,
breaking the loop on the first error.  Scene ids are distinct within a
run (they are created as Date.now() + index), so each status write of
iteration i targets exactly scene i; the per-scene write sequences are
therefore recorded as one trace per scene, in scene order. -/

/-- The terminal status write of one scene iteration
    (VideoPipeline.tsx lines 475 and 480): complete on success, error
    on a caught failure, nothing while the driver is still polling. -/
def sceneTerminal : GenOutcome → List SceneState
  | .ok _ => [SceneState.complete]
  | .err _ => [SceneState.error]
  | .stuck => []

/-- The observable result of the per-scene loop: one status-write trace
    per scene in order, the final status of each scene, whether
    generation failed, whether the loop is stuck mid-poll, and how many
    videos were collected into generatedVideos. -/
structure RunOutcome where
  traces : List (List SceneState)
  statuses : List SceneState
  failed : Bool
  hung : Bool
  okCount : Nat
deriving Repr, DecidableEq

/-- Model of the per-scene loop of handleVideoGeneration
    (VideoPipeline.tsx lines 460-484): each SceneEnv is the external
    behaviour of the corresponding scene, in scene order.  The loop
    writes generating, runs the driver, writes the terminal status, and
    breaks on the first error; scenes never started keep their pending
    status and an empty trace. -/
def runLoop : List SceneEnv → RunOutcome
  | [] => ⟨[], [], false, false, 0⟩
  | env :: rest =>
    let g := generateVideoForScene env
    let myTrace := SceneState.generating :: g.1 ++ sceneTerminal g.2
    match g.2 with
    | .ok _ =>
      let r := runLoop rest
      ⟨myTrace :: r.traces, SceneState.complete :: r.statuses, r.failed, r.hung, r.okCount + 1⟩
    | .err _ =>
      ⟨myTrace :: rest.map (fun _ => []),
       SceneState.error :: rest.map (fun _ => SceneState.pending), true, false, 0⟩
    | .stuck =>
      ⟨myTrace :: rest.map (fun _ => []),
       (if g.1 = [] then SceneState.generating else SceneState.polling)
         :: rest.map (fun _ => SceneState.pending), false, true, 0⟩

/-- Whether the character precheck resolves a description for this
    character (VideoPipeline.tsx line 414): only when there is an image
    and no description has been locked yet (JS truthiness). -/
def needsDescription (c : Character) : Bool :=
  jsTruthy c.imageBase64 && jsTruthy c.imageFile && !(jsTruthy c.lockedDescription)

/-- Model of the precheck (VideoPipeline.tsx lines 408-431): resolve a
    locked description for every character that needs one; the run
    aborts on the first failure (Promise.all rejection). -/
def enrichCharacters (resolve : Character → Except String String)
    (chars : List Character) : Except String (List Character) :=
  chars.mapM (fun c =>
    if needsDescription c then
      (resolve c).map (fun d => { c with lockedDescription := some d })
    else .ok c)

/-- The observable result of a whole run of handleVideoGeneration. -/
structure PipelineResult where
  runError : Option String
  statusesCreated : Bool
  traces : List (List SceneState)
  statuses : List SceneState
  stitchAttempted : Bool
deriving Repr, DecidableEq

/-- Model of handleVideoGeneration (VideoPipeline.tsx lines 399-512):
    the empty-scene guard, the character precheck (which aborts the run
    before any scene status is created), the per-scene loop, and the
    stitching step, attempted only when no scene failed and at least
    one video was generated. -/
def handleVideoGeneration (chars : List Character)
    (resolve : Character → Except String String)
    (sceneEnvs : List SceneEnv) : PipelineResult :=
  if sceneEnvs.length = 0 then
    { runError := some "No scenes to generate videos for."
      statusesCreated := false, traces := [], statuses := [], stitchAttempted := false }
  else
    match enrichCharacters resolve chars with
    | .error m =>
      { runError := some ("Failed to analyze character images: " ++ m)
        statusesCreated := false, traces := [], statuses := [], stitchAttempted := false }
    | .ok _ =>
      let r := runLoop sceneEnvs
      { runError := none
        statusesCreated := true
        traces := r.traces
        statuses := r.statuses
        stitchAttempted := !r.failed && !r.hung && decide (0 < r.okCount) }

/-! ## Concrete example inputs used by witnesses and counterexamples -/

/-- A concrete scene. -/
def exScene : Scene :=
  { id := 1, scene_description := "A hero rises", characters := ["Ava"]
    environment := "Forest", action := "Ava walks into the forest", transitionToNext := .fade }

/-- A concrete previous scene. -/
def exPrevScene : Scene :=
  { id := 0, scene_description := "A village at dawn", characters := []
    environment := "Village", action := "The village wakes", transitionToNext := .dissolve }

/-- A concrete continuity model. -/
def exBible : GlobalBible :=
  { characters := [], environments := [], style := "Anime", genre := "Horror" }

/-- A concrete character that needs a description (image present, no
    locked description). -/
def exCharacter : Character :=
  { id := 1, name := "Ava", imageFile := some "image/png"
    imageBase64 := some "data", lockedDescription := none }

/-- A concrete character with no image and no locked description. -/
def exCharNoDesc : Character :=
  { id := 2, name := "Rio", imageFile := none
    imageBase64 := none, lockedDescription := none }

/-- A concrete three-clip composition input. -/
def exVideos : List VideoToStitch :=
  [⟨"u0", .fade⟩, ⟨"u1", .dissolve⟩, ⟨"u2", .wipeleft⟩]

/-- A finished operation carrying a video uri. -/
def exOpDone : Operation := { done := true, error := none, videoUri := some "uri" }

/-- A still-running operation. -/
def exOpRunning : Operation := { done := false, error := none, videoUri := none }

/-- A finished operation carrying a terminal job error. -/
def exOpJobError : Operation := { done := true, error := some "job failed", videoUri := none }

/-- A scene environment whose generation succeeds immediately. -/
def exEnvOk : SceneEnv :=
  { submit := .ok exOpDone, attempts := [], downloadOk := true
    downloadStatus := 200, blobUrl := "blob0" }

/-- A scene environment whose submission fails. -/
def exEnvSubmitFail : SceneEnv :=
  { submit := .error "boom", attempts := [], downloadOk := true
    downloadStatus := 200, blobUrl := "blob1" }

/-- A scene environment that survives one poll transport failure, sees
    one still-running poll, and then receives a terminal job error. -/
def exEnvJobError : SceneEnv :=
  { submit := .ok exOpRunning
    attempts := [none, some exOpRunning, some exOpJobError]
    downloadOk := true, downloadStatus := 200, blobUrl := "blob2" }

/-! ## Lemmas about first-occurrence deduplication -/

/-- Membership in dedupFirstAux: in the remaining list and not yet seen. -/
theorem mem_dedupFirstAux (a : String) (l : List String) :
    ∀ seen : List String, a ∈ dedupFirstAux seen l ↔ a ∈ l ∧ a ∉ seen := by
  induction l with
  | nil => intro seen; simp [dedupFirstAux]
  | cons x xs ih =>
    intro seen
    by_cases hx : x ∈ seen
    · rw [dedupFirstAux, if_pos hx]
      rw [ih seen]
      simp only [List.mem_cons]
      constructor
      · rintro ⟨hm, hs⟩
        exact ⟨Or.inr hm, hs⟩
      · rintro ⟨hm | hm, hs⟩
        · exact absurd (hm ▸ hx) hs
        · exact ⟨hm, hs⟩
    · rw [dedupFirstAux, if_neg hx]
      simp only [List.mem_cons, ih (x :: seen)]
      constructor
      · rintro (rfl | ⟨hm, hs⟩)
        · exact ⟨Or.inl rfl, hx⟩
        · exact ⟨Or.inr hm, fun hc => hs (Or.inr hc)⟩
      · rintro ⟨hm | hm, hs⟩
        · exact Or.inl hm
        · by_cases hax : a = x
          · exact Or.inl hax
          · refine Or.inr ⟨hm, fun hc => ?_⟩
            rcases hc with h1 | h1
            · exact hax h1
            · exact hs h1

/-- The output of dedupFirstAux lists elements in order of their first
    occurrence: positions in the source list are strictly increasing. -/
theorem pairwise_dedupFirstAux (l : List String) :
    ∀ seen : List String,
      (dedupFirstAux seen l).Pairwise (fun a b => l.indexOf a < l.indexOf b) := by
  induction l with
  | nil => intro seen; simp [dedupFirstAux]
  | cons x xs ih =>
    intro seen
    have lift : ∀ {a b : String}, a ≠ x → b ≠ x →
        xs.indexOf a < xs.indexOf b → (x :: xs).indexOf a < (x :: xs).indexOf b := by
      intro a b ha hb h
      rw [List.indexOf_cons_ne xs (fun hh => ha hh.symm),
          List.indexOf_cons_ne xs (fun hh => hb hh.symm)]
      omega
    by_cases hx : x ∈ seen
    · rw [dedupFirstAux, if_pos hx]
      refine List.Pairwise.imp_of_mem ?_ (ih seen)
      intro a b ha hb hlt
      have ha' := (mem_dedupFirstAux a xs seen).mp ha
      have hb' := (mem_dedupFirstAux b xs seen).mp hb
      exact lift (fun hc => ha'.2 (hc ▸ hx)) (fun hc => hb'.2 (hc ▸ hx)) hlt
    · rw [dedupFirstAux, if_neg hx]
      rw [List.pairwise_cons]
      constructor
      · intro b hb
        have hb' := (mem_dedupFirstAux b xs (x :: seen)).mp hb
        have hbx : b ≠ x := fun hc => hb'.2 (hc ▸ List.mem_cons_self x seen)
        rw [List.indexOf_cons_self, List.indexOf_cons_ne xs (fun hh => hbx hh.symm)]
        omega
      · refine List.Pairwise.imp_of_mem ?_ (ih (x :: seen))
        intro a b ha hb hlt
        have ha' := (mem_dedupFirstAux a xs (x :: seen)).mp ha
        have hb' := (mem_dedupFirstAux b xs (x :: seen)).mp hb
        have hax : a ≠ x := fun hc => ha'.2 (hc ▸ List.mem_cons_self x seen)
        have hbx : b ≠ x := fun hc => hb'.2 (hc ▸ List.mem_cons_self x seen)
        exact lift hax hbx hlt

/-- dedupFirst produces no duplicates. -/
theorem nodup_dedupFirst (l : List String) : (dedupFirst l).Nodup := by
  refine List.Pairwise.imp ?_ (pairwise_dedupFirstAux l [])
  intro a b hlt heq
  subst heq
  exact Nat.lt_irrefl _ hlt

/-- dedupFirst keeps exactly the elements of its input. -/
theorem mem_dedupFirst (a : String) (l : List String) : a ∈ dedupFirst l ↔ a ∈ l := by
  simp [dedupFirst, mem_dedupFirstAux]

/-- The length of dedupFirst is the number of distinct elements. -/
theorem length_dedupFirst (l : List String) : (dedupFirst l).length = l.toFinset.card := by
  have h1 : (dedupFirst l).toFinset = l.toFinset := by
    ext a
    simp [List.mem_toFinset, mem_dedupFirst]
  rw [← List.toFinset_card_of_nodup (nodup_dedupFirst l), h1]

/-- assignEnvIds keeps the description list unchanged. -/
theorem assignEnvIds_map_description (l : List String) :
    ∀ i : Nat, (assignEnvIds i l).map EnvEntry.description = l := by
  induction l with
  | nil => intro i; simp [assignEnvIds]
  | cons e es ih => intro i; simp [assignEnvIds, ih]

/-- assignEnvIds keeps the list length. -/
theorem assignEnvIds_length (l : List String) :
    ∀ i : Nat, (assignEnvIds i l).length = l.length := by
  induction l with
  | nil => intro i; simp [assignEnvIds]
  | cons e es ih => intro i; simp [assignEnvIds, ih]

/-- The ids produced by assignEnvIds starting at i are
    env_(i+1), env_(i+2), ... in order. -/
theorem assignEnvIds_map_id (l : List String) :
    ∀ i : Nat, (assignEnvIds i l).map EnvEntry.id
      = (List.range l.length).map (fun j => "env_" ++ toString (i + j + 1)) := by
  induction l with
  | nil => intro i; simp [assignEnvIds]
  | cons e es ih =>
    intro i
    simp only [assignEnvIds, List.map_cons, List.length_cons,
      List.range_succ_eq_map, List.map_map]
    refine congrArg₂ List.cons ?_ ?_
    · have h0 : i + 0 + 1 = i + 1 := by omega
      rw [h0]
    · rw [ih (i + 1)]
      refine List.map_congr_left ?_
      intro a _
      simp only [Function.comp]
      have h1 : i + 1 + a + 1 = i + (a + 1) + 1 := by omega
      rw [h1]


/-- Claim C2: for every Scene list, the Continuity Model environments
    list contains no two entries with the same trimmed environment
    string, its length equals the number of distinct trimmed
    environment strings across the scenes, and entries carry sequential
    synthetic ids env_1, env_2, ... assigned in order of first
    appearance (descriptions are listed at strictly increasing
    first-occurrence positions of the trimmed environment list, and
    cover exactly its elements). -/
theorem uniqueEnvironments_spec (scenes : List Scene) :
    ((uniqueEnvironments scenes).map EnvEntry.description).Nodup
    ∧ (uniqueEnvironments scenes).length
        = (scenes.map (fun s => jsTrim s.environment)).toFinset.card
    ∧ (uniqueEnvironments scenes).map EnvEntry.id
        = (List.range (uniqueEnvironments scenes).length).map
            (fun j => "env_" ++ toString (j + 1))
    ∧ ((uniqueEnvironments scenes).map EnvEntry.description).Pairwise
        (fun a b => (scenes.map (fun s => jsTrim s.environment)).indexOf a
            < (scenes.map (fun s => jsTrim s.environment)).indexOf b)
    ∧ (∀ e, e ∈ (uniqueEnvironments scenes).map EnvEntry.description
        ↔ e ∈ scenes.map (fun s => jsTrim s.environment)) := by
  have hdesc : (uniqueEnvironments scenes).map EnvEntry.description
      = dedupFirst (scenes.map (fun s => jsTrim s.environment)) :=
    assignEnvIds_map_description _ 0
  have hlen : (uniqueEnvironments scenes).length
      = (dedupFirst (scenes.map (fun s => jsTrim s.environment))).length :=
    assignEnvIds_length _ 0
  refine ⟨?_, ?_, ?_, ?_, ?_⟩
  · rw [hdesc]
    exact nodup_dedupFirst _
  · rw [hlen]
    exact length_dedupFirst _
  · rw [uniqueEnvironments, assignEnvIds_map_id, assignEnvIds_length]
    refine List.map_congr_left ?_
    intro a _
    have h1 : 0 + a + 1 = a + 1 := by omega
    rw [h1]
  · rw [hdesc]
    exact pairwise_dedupFirstAux _ []
  · intro e
    rw [hdesc]
    exact mem_dedupFirst e _

/-- Claim C4: for N >= 2 clips with the hard-coded content duration 7
    and transition duration 1, the filter graph assigns transition i
    (0-indexed, between clip i and clip i+1) the offset
    (i+1) * contentDuration, for every i in 0 .. N-2; there are exactly
    N-1 transitions and every one carries the fixed duration. -/
theorem stitch_offset_law (videos : List VideoToStitch) (h : 2 ≤ videos.length) :
    clipDurationBeforeTransition = 7
    ∧ transitionDuration = 1
    ∧ (xfadeSteps videos).length = videos.length - 1
    ∧ ∀ i, i < videos.length - 1 →
        ((xfadeSteps videos)[i]?.map XfadeStep.offset
            = some ((i + 1) * clipDurationBeforeTransition)
        ∧ (xfadeSteps videos)[i]?.map XfadeStep.duration = some transitionDuration) := by
  refine ⟨rfl, rfl, ?_, ?_⟩
  · simp [xfadeSteps]
  · intro i hi
    have hget : (xfadeSteps videos)[i]? = some (xfadeStep videos (i + 1)) := by
      rw [xfadeSteps, List.getElem?_map, List.getElem?_range hi]
      rfl
    rw [hget]
    exact ⟨rfl, rfl⟩

/-- Witness for stitch_offset_law: a concrete three-clip input has two
    transitions with offsets 7 and 14 and duration 1. -/
theorem stitch_offset_law_witness :
    clipDurationBeforeTransition = 7
    ∧ transitionDuration = 1
    ∧ (xfadeSteps exVideos).length = exVideos.length - 1
    ∧ ∀ i, i < exVideos.length - 1 →
        ((xfadeSteps exVideos)[i]?.map XfadeStep.offset
            = some ((i + 1) * clipDurationBeforeTransition)
        ∧ (xfadeSteps exVideos)[i]?.map XfadeStep.duration = some transitionDuration) :=
  stitch_offset_law exVideos (by decide)

/-- Claim C5: composing a single clip is the identity: the returned
    artifact is byte-identical to the sole input artifact and the
    result never takes the filter-graph form (no graph is built or
    executed). -/
theorem stitch_single_identity (fetch : String → List Nat) (v : VideoToStitch) :
    stitchVideos fetch [v] = StitchResult.single (fetch v.url)
    ∧ ∀ g st, stitchVideos fetch [v] ≠ StitchResult.composed g st := by
  refine ⟨rfl, ?_⟩
  intro g st hc
  simp [stitchVideos] at hc

/-- Two string concatenations whose left parts differ at character
    index 1 are different strings. -/
theorem append_ne_of_second_char (a b r s : String) (x y : Char)
    (hx : a.data[1]? = some x) (hy : b.data[1]? = some y) (hxy : x ≠ y) :
    a ++ r ≠ b ++ s := by
  intro h
  have hd : a.data ++ r.data = b.data ++ s.data := by
    have h2 := congrArg String.data h
    rwa [String.data_append, String.data_append] at h2
  have hlx : 1 < a.data.length := (List.getElem?_eq_some.mp hx).1
  have hly : 1 < b.data.length := (List.getElem?_eq_some.mp hy).1
  have h1 : (a.data ++ r.data)[1]? = some x := by
    rw [List.getElem?_append, if_pos hlx]
    exact hx
  have h2 : (b.data ++ s.data)[1]? = some y := by
    rw [List.getElem?_append, if_pos hly]
    exact hy
  rw [hd, h2] at h1
  exact hxy (Option.some.inj h1).symm

/-- Claim C6 counterexample: at a concrete input the first N characters
    of the composed directive (N the byte length of the style/genre
    opening clause) are not the opening clause: the directive begins
    with the fixed role preamble instead, and the clause only occurs
    further inside the directive. -/
theorem userPrompt_styleClause_not_first :
    (Continuity.userPrompt exScene exBible (some exPrevScene)).data.take
        (Continuity.styleClause exBible.style exBible.genre).data.length
      ≠ (Continuity.styleClause exBible.style exBible.genre).data := by
  decide

/-- Claim C6 (amended): prompt composition is deterministic — identical
    (scene, continuity model, prevScene) inputs give a byte-identical
    directive — and the style/genre templated clause appears verbatim
    inside the directive (as the mandatory-opening instruction for the
    downstream model); the directive itself does not begin with the
    clause (see the counterexample). -/
theorem userPrompt_deterministic (s1 s2 : Scene) (b1 b2 : GlobalBible)
    (p1 p2 : Option Scene) (hs : s1 = s2) (hb : b1 = b2) (hp : p1 = p2) :
    Continuity.userPrompt s1 b1 p1 = Continuity.userPrompt s2 b2 p2
    ∧ ∃ pre post, Continuity.userPrompt s1 b1 p1
        = pre ++ Continuity.styleClause b1.style b1.genre ++ post := by
  subst hs
  subst hb
  subst hp
  refine ⟨rfl, ?_⟩
  cases p1 with
  | some q =>
      exact ⟨Continuity.rolePreamble ++ Continuity.basePromptTail s1 b1 (some q),
        "\"\n    ",
        by simp [Continuity.userPrompt, Continuity.basePrompt, String.append_assoc]⟩
  | none =>
      exact ⟨Continuity.lockBlockPre
          ++ (Continuity.rolePreamble ++ Continuity.basePromptTail s1 b1 none),
        "\"\n    " ++ "\n        ",
        by simp [Continuity.userPrompt, Continuity.basePrompt, String.append_assoc]⟩

/-- Witness for userPrompt_deterministic at a concrete input. -/
theorem userPrompt_deterministic_witness :
    Continuity.userPrompt exScene exBible (some exPrevScene)
        = Continuity.userPrompt exScene exBible (some exPrevScene)
    ∧ ∃ pre post, Continuity.userPrompt exScene exBible (some exPrevScene)
        = pre ++ Continuity.styleClause exBible.style exBible.genre ++ post :=
  userPrompt_deterministic exScene exScene exBible exBible
    (some exPrevScene) (some exPrevScene) rfl rfl rfl

/-- Claim C7: composing the directive is total pure string construction
    — the composed directive is always a nonempty string, for every
    input — and a missing required field is substituted by a documented
    default: a character whose lockedDescription is null or empty gets
    the no-visual-reference placeholder line, and an empty scene
    character list renders the Characters Present field as None. -/
theorem prompt_no_failure :
    (∀ (s : Scene) (b : GlobalBible) (p : Option Scene),
        Continuity.userPrompt s b p ≠ "")
    ∧ (∀ c : Character, (c.lockedDescription = none ∨ c.lockedDescription = some "") →
        Continuity.characterLine c
          = "- **" ++ c.name ++ "**: " ++ Continuity.noReferenceDefault)
    ∧ (∀ s : Scene, s.characters = [] → Continuity.charactersPresent s = "None") := by
  refine ⟨?_, ?_, ?_⟩
  · intro s b p h
    have hd := congrArg String.data h
    cases p with
    | some q =>
      simp only [Continuity.userPrompt, Continuity.basePrompt, String.data_append] at hd
      obtain ⟨-, h2⟩ := List.append_eq_nil.mp hd
      exact absurd h2 (by decide)
    | none =>
      simp only [Continuity.userPrompt, Continuity.basePrompt, String.data_append] at hd
      obtain ⟨-, h2⟩ := List.append_eq_nil.mp hd
      exact absurd h2 (by decide)
  · intro c hc
    rcases hc with hc | hc
    · simp [Continuity.characterLine, jsOr, hc]
    · simp [Continuity.characterLine, jsOr, hc]
  · intro s hs
    simp [Continuity.charactersPresent, hs, String.intercalate]

/-- Witness for prompt_no_failure at concrete inputs. -/
theorem prompt_no_failure_witness :
    Continuity.userPrompt exScene exBible none ≠ ""
    ∧ Continuity.characterLine exCharNoDesc
        = "- **" ++ exCharNoDesc.name ++ "**: " ++ Continuity.noReferenceDefault
    ∧ Continuity.charactersPresent exPrevScene = "None" :=
  ⟨prompt_no_failure.1 exScene exBible none,
   prompt_no_failure.2.1 exCharNoDesc (Or.inl rfl),
   prompt_no_failure.2.2 exPrevScene rfl⟩

set_option maxRecDepth 8000 in
/-- Claim C8: when prevScene is absent the composed directive has the
    lock-character-designs instruction block prepended and the
    continuity note is the first-scene establish-tone instruction; when
    prevScene is present no lock block is prepended (the directive does
    not start with it) and the continuity note quotes prevScene.action
    and instructs a smooth transition. -/
theorem userPrompt_firstScene_lock :
    (∀ (s : Scene) (b : GlobalBible),
      Continuity.userPrompt s b none
          = Continuity.lockBlockPre ++ Continuity.basePrompt s b none ++ "\n        "
        ∧ Continuity.continuityNote none
          = "This is the very first scene of the story. Set the tone and introduce the world.")
    ∧ (∀ (s : Scene) (b : GlobalBible) (q : Scene),
      Continuity.userPrompt s b (some q) = Continuity.basePrompt s b (some q)
        ∧ (∀ rest : String,
            Continuity.userPrompt s b (some q) ≠ Continuity.lockBlockPre ++ rest)
        ∧ Continuity.continuityNote (some q)
          = "This scene directly follows a scene where: \"" ++ q.action
              ++ "\". Ensure a smooth transition.") := by
  refine ⟨fun s b => ⟨rfl, rfl⟩, fun s b q => ⟨rfl, ?_, rfl⟩⟩
  intro rest
  have hshape : Continuity.userPrompt s b (some q)
      = Continuity.rolePreamble
          ++ (Continuity.basePromptTail s b (some q)
            ++ (Continuity.styleClause b.style b.genre ++ "\"\n    ")) := by
    simp [Continuity.userPrompt, Continuity.basePrompt, String.append_assoc]
  rw [hshape]
  exact append_ne_of_second_char _ _ _ _ 'Y' 'I' (by decide) (by decide) (by decide)

/-- Witness for userPrompt_firstScene_lock at concrete inputs. -/
theorem userPrompt_firstScene_lock_witness :
    (Continuity.userPrompt exScene exBible none
        = Continuity.lockBlockPre ++ Continuity.basePrompt exScene exBible none ++ "\n        "
      ∧ Continuity.continuityNote none
        = "This is the very first scene of the story. Set the tone and introduce the world.")
    ∧ (Continuity.userPrompt exScene exBible (some exPrevScene)
          = Continuity.basePrompt exScene exBible (some exPrevScene)
      ∧ (∀ rest : String,
          Continuity.userPrompt exScene exBible (some exPrevScene)
            ≠ Continuity.lockBlockPre ++ rest)
      ∧ Continuity.continuityNote (some exPrevScene)
        = "This scene directly follows a scene where: \"" ++ exPrevScene.action
            ++ "\". Ensure a smooth transition.") :=
  ⟨userPrompt_firstScene_lock.1 exScene exBible,
   userPrompt_firstScene_lock.2 exScene exBible exPrevScene⟩

/-! ## Lemmas about the poll loop and the sequencer -/

/-- An indexed element is a member. -/
theorem mem_of_getElem?_some {α : Type} {l : List α} {n : Nat} {a : α}
    (h : l[n]? = some a) : a ∈ l := by
  obtain ⟨hl, rfl⟩ := List.getElem?_eq_some.mp h
  exact List.getElem_mem hl

/-- Indexing a constant-map list inside its bounds. -/
theorem getElem?_map_const {α β : Type} (l : List α) (x : β) (j : Nat)
    (hj : j < l.length) : (l.map (fun _ => x))[j]? = some x := by
  rw [List.getElem?_map, List.getElem?_eq_getElem hj]
  rfl

/-- Every status written inside the poll loop is polling. -/
theorem pollLoop_writes_polling (attempts : List (Option Operation)) :
    ∀ (op : Operation) (s : SceneState),
      s ∈ (pollLoop attempts op).1 → s = SceneState.polling := by
  induction attempts with
  | nil =>
    intro op s hs
    by_cases hd : op.done <;> simp [pollLoop, hd] at hs
  | cons a rest ih =>
    intro op s hs
    cases a with
    | none =>
      by_cases hd : op.done
      · simp [pollLoop, hd] at hs
      · rw [pollLoop, if_neg hd] at hs
        exact ih op s hs
    | some next =>
      by_cases hd : op.done
      · simp [pollLoop, hd] at hs
      · rw [pollLoop, if_neg hd] at hs
        simp only [List.mem_append] at hs
        rcases hs with h1 | h1
        · by_cases hn : next.done
          · simp [hn] at h1
          · simp [hn] at h1
            exact h1
        · exact ih next s h1

/-- The poll loop only finishes on a done operation. -/
theorem pollLoop_done (attempts : List (Option Operation)) :
    ∀ (op opF : Operation), (pollLoop attempts op).2 = some opF → opF.done = true := by
  induction attempts with
  | nil =>
    intro op opF h
    by_cases hd : op.done
    · simp [pollLoop, hd] at h
      rw [← h]
      exact hd
    · simp [pollLoop, hd] at h
  | cons a rest ih =>
    intro op opF h
    cases a with
    | none =>
      by_cases hd : op.done
      · simp [pollLoop, hd] at h
        rw [← h]
        exact hd
      · rw [pollLoop, if_neg hd] at h
        exact ih op opF h
    | some next =>
      by_cases hd : op.done
      · simp [pollLoop, hd] at h
        rw [← h]
        exact hd
      · rw [pollLoop, if_neg hd] at h
        exact ih next opF h

/-- All driver writes of one scene generation are polling writes. -/
theorem pollWrites_polling (env : SceneEnv) :
    ∀ s ∈ pollWrites env, s = SceneState.polling := by
  intro s hs
  rcases hsub : env.submit with m | op0
  · simp [pollWrites, hsub] at hs
  · simp only [pollWrites, hsub] at hs
    exact pollLoop_writes_polling env.attempts op0 s hs

/-- One step of the sequencer loop on a successful scene. -/
theorem runLoop_cons_ok (env : SceneEnv) (rest : List SceneEnv) (url : String)
    (h : genOutcome env = .ok url) :
    runLoop (env :: rest) =
      ⟨(SceneState.generating :: (pollWrites env ++ [SceneState.complete]))
          :: (runLoop rest).traces,
        SceneState.complete :: (runLoop rest).statuses,
        (runLoop rest).failed, (runLoop rest).hung, (runLoop rest).okCount + 1⟩ := by
  simp [runLoop, generateVideoForScene, h, sceneTerminal]

/-- One step of the sequencer loop on a failing scene: the loop breaks,
    later scenes get no writes and stay pending. -/
theorem runLoop_cons_err (env : SceneEnv) (rest : List SceneEnv) (msg : String)
    (h : genOutcome env = .err msg) :
    runLoop (env :: rest) =
      ⟨(SceneState.generating :: (pollWrites env ++ [SceneState.error]))
          :: rest.map (fun _ => []),
        SceneState.error :: rest.map (fun _ => SceneState.pending),
        true, false, 0⟩ := by
  simp [runLoop, generateVideoForScene, h, sceneTerminal]

/-- One step of the sequencer loop on a scene stuck in its poll loop. -/
theorem runLoop_cons_stuck (env : SceneEnv) (rest : List SceneEnv)
    (h : genOutcome env = .stuck) :
    runLoop (env :: rest) =
      ⟨(SceneState.generating :: pollWrites env) :: rest.map (fun _ => []),
        (if pollWrites env = [] then SceneState.generating else SceneState.polling)
          :: rest.map (fun _ => SceneState.pending),
        false, true, 0⟩ := by
  simp [runLoop, generateVideoForScene, h, sceneTerminal]

/-- Every per-scene trace of the sequencer loop is either empty (scene
    never started) or generating followed by polling writes followed by
    at most one terminal write. -/
theorem runLoop_trace_shape (envs : List SceneEnv) :
    ∀ tr ∈ (runLoop envs).traces,
      tr = [] ∨ ∃ ws term, tr = SceneState.generating :: (ws ++ term)
        ∧ (∀ s ∈ ws, s = SceneState.polling)
        ∧ (term = [] ∨ term = [SceneState.complete] ∨ term = [SceneState.error]) := by
  induction envs with
  | nil =>
    intro tr htr
    simp [runLoop] at htr
  | cons env rest ih =>
    intro tr htr
    rcases hout : genOutcome env with url | msg | _
    · rw [runLoop_cons_ok env rest url hout] at htr
      rcases List.mem_cons.mp htr with rfl | h1
      · exact Or.inr ⟨pollWrites env, [SceneState.complete], rfl,
          pollWrites_polling env, Or.inr (Or.inl rfl)⟩
      · exact ih tr h1
    · rw [runLoop_cons_err env rest msg hout] at htr
      rcases List.mem_cons.mp htr with rfl | h1
      · exact Or.inr ⟨pollWrites env, [SceneState.error], rfl,
          pollWrites_polling env, Or.inr (Or.inr rfl)⟩
      · left
        rcases List.mem_map.mp h1 with ⟨a, -, h2⟩
        exact h2.symm
    · rw [runLoop_cons_stuck env rest hout] at htr
      rcases List.mem_cons.mp htr with rfl | h1
      · refine Or.inr ⟨pollWrites env, [], ?_, pollWrites_polling env, Or.inl rfl⟩
        rw [List.append_nil]
      · left
        rcases List.mem_map.mp h1 with ⟨a, -, h2⟩
        exact h2.symm

/-- After the first scene error the sequencer loop has failed and every
    later scene keeps a pending status and an empty trace. -/
theorem runLoop_error_fail (envs : List SceneEnv) :
    ∀ k, (runLoop envs).statuses[k]? = some SceneState.error →
      (runLoop envs).failed = true
      ∧ ∀ j, k < j → j < envs.length →
          (runLoop envs).statuses[j]? = some SceneState.pending
          ∧ (runLoop envs).traces[j]? = some [] := by
  induction envs with
  | nil =>
    intro k h
    simp [runLoop] at h
  | cons env rest ih =>
    intro k h
    rcases hout : genOutcome env with url | msg | _
    · rw [runLoop_cons_ok env rest url hout] at h ⊢
      cases k with
      | zero => simp at h
      | succ k' =>
        rw [List.getElem?_cons_succ] at h
        obtain ⟨hf, hrest⟩ := ih k' h
        refine ⟨hf, ?_⟩
        intro j hj hjl
        cases j with
        | zero => omega
        | succ j' =>
          have hj' : k' < j' := by omega
          have hjl' : j' < rest.length := by
            simp only [List.length_cons] at hjl
            omega
          obtain ⟨h1, h2⟩ := hrest j' hj' hjl'
          exact ⟨by simpa using h1, by simpa using h2⟩
    · rw [runLoop_cons_err env rest msg hout] at h ⊢
      cases k with
      | zero =>
        refine ⟨rfl, ?_⟩
        intro j hj hjl
        cases j with
        | zero => omega
        | succ j' =>
          have hjl' : j' < rest.length := by
            simp only [List.length_cons] at hjl
            omega
          constructor
          · rw [List.getElem?_cons_succ]
            exact getElem?_map_const rest SceneState.pending j' hjl'
          · rw [List.getElem?_cons_succ]
            exact getElem?_map_const rest ([] : List SceneState) j' hjl'
      | succ k' =>
        rw [List.getElem?_cons_succ] at h
        by_cases hk : k' < rest.length
        · rw [getElem?_map_const rest SceneState.pending k' hk] at h
          simp at h
        · rw [List.getElem?_eq_none (by simpa using Nat.le_of_not_lt hk)] at h
          simp at h
    · rw [runLoop_cons_stuck env rest hout] at h ⊢
      cases k with
      | zero =>
        by_cases hpw : pollWrites env = [] <;> simp [hpw] at h
      | succ k' =>
        rw [List.getElem?_cons_succ] at h
        by_cases hk : k' < rest.length
        · rw [getElem?_map_const rest SceneState.pending k' hk] at h
          simp at h
        · rw [List.getElem?_eq_none (by simpa using Nat.le_of_not_lt hk)] at h
          simp at h

/-- Claim C1: if the scene at index k is the first to end in Error, the
    sequencer stops iterating immediately: every scene with index
    greater than k has a pending status and an empty write trace at run
    end (its generation is never started), and no composition is
    attempted. -/
theorem sequencer_fail_fast (chars : List Character)
    (resolve : Character → Except String String) (sceneEnvs : List SceneEnv) (k : Nat)
    (hk : (handleVideoGeneration chars resolve sceneEnvs).statuses[k]?
        = some SceneState.error)
    (hfirst : ∀ j, j < k →
        (handleVideoGeneration chars resolve sceneEnvs).statuses[j]?
          ≠ some SceneState.error) :
    (∀ j, k < j → j < sceneEnvs.length →
        (handleVideoGeneration chars resolve sceneEnvs).statuses[j]?
            = some SceneState.pending
        ∧ (handleVideoGeneration chars resolve sceneEnvs).traces[j]? = some [])
    ∧ (handleVideoGeneration chars resolve sceneEnvs).stitchAttempted = false := by
  by_cases hempty : sceneEnvs.length = 0
  · simp only [handleVideoGeneration, if_pos hempty] at hk
    simp at hk
  · rcases henrich : enrichCharacters resolve chars with m | cs
    · simp only [handleVideoGeneration, if_neg hempty, henrich] at hk
      simp at hk
    · have hred : handleVideoGeneration chars resolve sceneEnvs =
          { runError := none
            statusesCreated := true
            traces := (runLoop sceneEnvs).traces
            statuses := (runLoop sceneEnvs).statuses
            stitchAttempted := !(runLoop sceneEnvs).failed && !(runLoop sceneEnvs).hung
              && decide (0 < (runLoop sceneEnvs).okCount) } := by
        simp [handleVideoGeneration, hempty, henrich]
      rw [hred] at hk ⊢
      obtain ⟨hf, hrest⟩ := runLoop_error_fail sceneEnvs k hk
      refine ⟨fun j hj hjl => hrest j hj hjl, ?_⟩
      simp [hf]

/-- Witness for sequencer_fail_fast: three scenes, the second fails at
    submission; the run ends complete, error, pending and no stitching
    is attempted. -/
theorem sequencer_fail_fast_witness :
    ((handleVideoGeneration [] (fun _ => Except.ok "d")
        [exEnvOk, exEnvSubmitFail, exEnvOk]).statuses[1]? = some SceneState.error
      ∧ (∀ j, j < 1 → (handleVideoGeneration [] (fun _ => Except.ok "d")
          [exEnvOk, exEnvSubmitFail, exEnvOk]).statuses[j]? ≠ some SceneState.error))
    ∧ ((∀ j, 1 < j → j < ([exEnvOk, exEnvSubmitFail, exEnvOk] : List SceneEnv).length →
        (handleVideoGeneration [] (fun _ => Except.ok "d")
            [exEnvOk, exEnvSubmitFail, exEnvOk]).statuses[j]? = some SceneState.pending
        ∧ (handleVideoGeneration [] (fun _ => Except.ok "d")
            [exEnvOk, exEnvSubmitFail, exEnvOk]).traces[j]? = some [])
      ∧ (handleVideoGeneration [] (fun _ => Except.ok "d")
          [exEnvOk, exEnvSubmitFail, exEnvOk]).stitchAttempted = false) :=
  ⟨⟨by decide, by decide⟩,
   sequencer_fail_fast [] (fun _ => Except.ok "d") [exEnvOk, exEnvSubmitFail, exEnvOk] 1
     (by decide) (by decide)⟩

/-- Claim C3: in every run, every per-scene status-write sequence never
    contains a further write after Complete or Error (a terminal write
    is the last write), and Polling never appears before a Generating
    entry for that scene. -/
theorem scene_status_temporal (chars : List Character)
    (resolve : Character → Except String String) (sceneEnvs : List SceneEnv)
    (i : Nat) (tr : List SceneState)
    (htr : (handleVideoGeneration chars resolve sceneEnvs).traces[i]? = some tr) :
    (∀ (j : Nat) (s : SceneState), tr[j]? = some s →
        s = SceneState.complete ∨ s = SceneState.error → j + 1 = tr.length)
    ∧ (∀ j : Nat, tr[j]? = some SceneState.polling →
        ∃ j' : Nat, j' < j ∧ tr[j']? = some SceneState.generating) := by
  have hmem : tr ∈ (runLoop sceneEnvs).traces := by
    by_cases hempty : sceneEnvs.length = 0
    · simp only [handleVideoGeneration, if_pos hempty] at htr
      simp at htr
    · rcases henrich : enrichCharacters resolve chars with m | cs
      · simp only [handleVideoGeneration, if_neg hempty, henrich] at htr
        simp at htr
      · simp only [handleVideoGeneration, if_neg hempty, henrich] at htr
        exact mem_of_getElem?_some htr
  rcases runLoop_trace_shape sceneEnvs tr hmem with rfl | ⟨ws, term, rfl, hws, hterm⟩
  · constructor
    · intro j s hj _
      simp at hj
    · intro j hj
      simp at hj
  · constructor
    · intro j s hj hs
      cases j with
      | zero =>
        rw [List.getElem?_cons_zero] at hj
        have hgen := Option.some.inj hj
        rcases hs with hs | hs <;> rw [← hgen] at hs <;> exact absurd hs (by decide)
      | succ j' =>
        rw [List.getElem?_cons_succ, List.getElem?_append] at hj
        by_cases hlt : j' < ws.length
        · rw [if_pos hlt] at hj
          have hpoll := hws s (mem_of_getElem?_some hj)
          rcases hs with hs | hs <;> rw [hpoll] at hs <;> exact absurd hs (by decide)
        · rw [if_neg hlt] at hj
          rcases hterm with rfl | rfl | rfl
          · simp at hj
          · have hj0 : j' - ws.length = 0 := by
              rcases hd : j' - ws.length with _ | m
              · rfl
              · rw [hd] at hj
                simp at hj
            have hj'eq : j' = ws.length := by omega
            simp only [List.length_cons, List.length_append, List.length_nil]
            omega
          · have hj0 : j' - ws.length = 0 := by
              rcases hd : j' - ws.length with _ | m
              · rfl
              · rw [hd] at hj
                simp at hj
            have hj'eq : j' = ws.length := by omega
            simp only [List.length_cons, List.length_append, List.length_nil]
            omega
    · intro j hj
      cases j with
      | zero =>
        rw [List.getElem?_cons_zero] at hj
        exact absurd (Option.some.inj hj) (by decide)
      | succ j' =>
        exact ⟨0, Nat.succ_pos j', List.getElem?_cons_zero⟩

/-- Witness for scene_status_temporal: a run whose single scene polls
    once and then fails has the write trace generating, polling, error,
    which satisfies both temporal properties. -/
theorem scene_status_temporal_witness :
    ((handleVideoGeneration [] (fun _ => Except.ok "d") [exEnvJobError]).traces[0]?
        = some [SceneState.generating, SceneState.polling, SceneState.error])
    ∧ ((∀ (j : Nat) (s : SceneState),
          [SceneState.generating, SceneState.polling, SceneState.error][j]? = some s →
          s = SceneState.complete ∨ s = SceneState.error →
          j + 1 = [SceneState.generating, SceneState.polling, SceneState.error].length)
      ∧ (∀ j : Nat, [SceneState.generating, SceneState.polling,
            SceneState.error][j]? = some SceneState.polling →
          ∃ j' : Nat, j' < j ∧ [SceneState.generating, SceneState.polling,
            SceneState.error][j']? = some SceneState.generating)) :=
  ⟨by decide,
   scene_status_temporal [] (fun _ => Except.ok "d") [exEnvJobError] 0
     [SceneState.generating, SceneState.polling, SceneState.error] (by decide)⟩

/-- Claim C9: when character locked-description resolution fails for
    any character, the whole run aborts with a single run-level error
    before the per-scene loop: no scene status is created, no status is
    ever written, and no composition is attempted. -/
theorem precheck_aborts (chars : List Character)
    (resolve : Character → Except String String) (sceneEnvs : List SceneEnv) (m : String)
    (hne : 0 < sceneEnvs.length)
    (henr : enrichCharacters resolve chars = .error m) :
    handleVideoGeneration chars resolve sceneEnvs =
      { runError := some ("Failed to analyze character images: " ++ m)
        statusesCreated := false
        traces := []
        statuses := []
        stitchAttempted := false } := by
  have h0 : ¬ sceneEnvs.length = 0 := by omega
  simp [handleVideoGeneration, h0, henr]

/-- Witness for precheck_aborts: a character with an image and no
    cached description whose resolution fails aborts the run. -/
theorem precheck_aborts_witness :
    (0 < ([exEnvOk] : List SceneEnv).length
      ∧ enrichCharacters (fun _ => Except.error "analysis failed") [exCharacter]
          = Except.error "analysis failed")
    ∧ handleVideoGeneration [exCharacter] (fun _ => Except.error "analysis failed")
        [exEnvOk]
      = { runError := some ("Failed to analyze character images: " ++ "analysis failed")
          statusesCreated := false
          traces := []
          statuses := []
          stitchAttempted := false } :=
  ⟨⟨by decide, rfl⟩,
   precheck_aborts [exCharacter] (fun _ => Except.error "analysis failed") [exEnvOk]
     "analysis failed" (by decide) rfl⟩

/-- Claim C10: a non-OK poll response leaves the operation state
    unchanged and the loop keeps polling with the remaining attempts
    (after the fixed 10000 ms delay); during polling a scene error can
    only arise from a done operation carrying a terminal error result,
    from a done operation without a video uri, or from a failed
    artifact download — never from the transport failure itself. -/
theorem poll_transport_failure :
    (∀ (attempts : List (Option Operation)) (op : Operation), op.done = false →
        pollLoop (none :: attempts) op = pollLoop attempts op)
    ∧ (∀ (env : SceneEnv) (op0 : Operation) (msg : String),
        env.submit = .ok op0 → genOutcome env = .err msg →
        ∃ opF, (pollLoop env.attempts op0).2 = some opF ∧ opF.done = true
          ∧ (opF.error.isSome = true
             ∨ (opF.error = none ∧ opF.videoUri = none)
             ∨ (opF.error = none ∧ opF.videoUri.isSome = true
                ∧ env.downloadOk = false)))
    ∧ pollIntervalMs = 10000 := by
  refine ⟨?_, ?_, rfl⟩
  · intro attempts op h
    rw [pollLoop, if_neg (by simp [h] : ¬ op.done = true)]
  · intro env op0 msg hsub hout
    simp only [genOutcome, hsub] at hout
    rcases hpoll : (pollLoop env.attempts op0).2 with _ | opF
    · rw [hpoll] at hout
      simp at hout
    · rw [hpoll] at hout
      refine ⟨opF, rfl, pollLoop_done env.attempts op0 opF hpoll, ?_⟩
      rcases herr : opF.error with _ | em
      · rcases huri : opF.videoUri with _ | uri
        · exact Or.inr (Or.inl ⟨rfl, rfl⟩)
        · cases hdl : env.downloadOk with
          | false => exact Or.inr (Or.inr ⟨rfl, rfl, rfl⟩)
          | true => simp [herr, huri, hdl] at hout
      · exact Or.inl rfl

/-- Witness for poll_transport_failure: the concrete environment with a
    transport failure, a still-running poll and a terminal job error. -/
theorem poll_transport_failure_witness :
    (exOpRunning.done = false
      ∧ exEnvJobError.submit = Except.ok exOpRunning
      ∧ genOutcome exEnvJobError
          = GenOutcome.err (errWrap ("Video generation failed: " ++ "job failed")))
    ∧ (pollLoop (none :: exEnvJobError.attempts) exOpRunning
          = pollLoop exEnvJobError.attempts exOpRunning
      ∧ ∃ opF, (pollLoop exEnvJobError.attempts exOpRunning).2 = some opF
          ∧ opF.done = true
          ∧ (opF.error.isSome = true
             ∨ (opF.error = none ∧ opF.videoUri = none)
             ∨ (opF.error = none ∧ opF.videoUri.isSome = true
                ∧ exEnvJobError.downloadOk = false))) :=
  ⟨⟨rfl, rfl, rfl⟩,
   ⟨poll_transport_failure.1 exEnvJobError.attempts exOpRunning rfl,
    poll_transport_failure.2.1 exEnvJobError exOpRunning
      (errWrap ("Video generation failed: " ++ "job failed")) rfl rfl⟩⟩

/-- Witness for stitch_single_identity at a concrete clip and fetch
    function. -/
theorem stitch_single_identity_witness :
    stitchVideos (fun _ => [7, 8, 9]) [⟨"u0", TransitionType.fade⟩]
        = StitchResult.single ((fun _ => [7, 8, 9]) "u0")
    ∧ ∀ g st, stitchVideos (fun _ => [7, 8, 9]) [⟨"u0", TransitionType.fade⟩]
        ≠ StitchResult.composed g st :=
  stitch_single_identity (fun _ => [7, 8, 9]) ⟨"u0", TransitionType.fade⟩
